import Mathlib

/-!
Shallow embedding of `provider/sdk/feast_azure_provider/mssqlserver_source.py`
(repository `nightism/feast-azure`).

The file defines two Python classes:

* `MsSqlServerOptions` — a mutable record of two optional strings
  (`_connection_str`, `_table_ref`) with a JSON-payload serialization
  (`to_proto`) writing keys `"table_ref"` / `"connection_string"` and a
  deserialization (`from_proto`) reading keys `"table_ref"` /
  `"connection_str"` (dict subscripting, so a missing key raises `KeyError`).

* `MsSqlServerSource` — wraps an options holder plus base data-source fields
  (event/created timestamp columns, field mapping, date partition column).
  Construction keeps a separate copy of the connection string
  (`self._connection_str`) next to the one inside the options object, and
  substitutes a falsy (`None` or empty) `event_timestamp_column` by the base
  class inference `_infer_event_timestamp_column("TIMESTAMP|DATETIME")`.
  Equality raises `TypeError` against non-source values and otherwise compares
  connection string, the two timestamp columns, and the field mapping.
  `get_table_column_names_and_types` opens an engine on the stored
  `_connection_str` copy, splits `self.table_ref` on `"."` into
  `database, table_name` (a Python unpacking that raises unless the split has
  exactly two parts), queries `INFORMATION_SCHEMA.COLUMNS` and zips the
  `COLUMN_NAME` and `DATA_TYPE` columns of the result.

Python strings are `String` / `Option String` (`none` = Python `None`);
JSON payloads are association lists of (key, value); fallible Python code
is `Except String`; the external SQL layer (engine + `pandas.read_sql`)
is a parameter of type `SqlLayer` returning the two columns of the
metadata query result.
-/

/-- A JSON value as produced or consumed by the options payload: the writers
only ever put strings or `null` into the configuration object. -/
inductive JVal where
  | str (s : String)
  | null
deriving DecidableEq

/-- Encoding of an optional Python string as a JSON value (`None` becomes
JSON `null`, as `json.dumps` does). -/
def jOfOptStr : Option String → JVal
  | none => JVal.null
  | some s => JVal.str s

/-- Decoding of a JSON value back to an optional Python string (`null`
becomes `None`, as `json.loads` does). -/
def jToOptStr : JVal → Option String
  | JVal.null => none
  | JVal.str s => some s

/-- Lookup in a JSON object (association list); a later binding for the same
key shadows an earlier one, as in a Python `dict`. -/
def jsonGet : List (String × JVal) → String → Option JVal
  | [], _ => none
  | (k, v) :: rest, key =>
    match jsonGet rest key with
    | some v2 => some v2
    | none => if k == key then some v else none

/-- Python dict subscripting `obj[k]` on a JSON object: raises `KeyError`
when the key is absent. -/
def keyLookup (obj : List (String × JVal)) (k : String) : Except String JVal :=
  match jsonGet obj k with
  | some v => Except.ok v
  | none => Except.error ("KeyError: " ++ k)

/-- `MsSqlServerOptions`: the two fields set by `__init__`
(`self._connection_str`, `self._table_ref`). -/
structure MsSqlServerOptions where
  _connection_str : Option String
  _table_ref : Option String
deriving DecidableEq

/-- Property `MsSqlServerOptions.connection_str` (getter). -/
def MsSqlServerOptions.connection_str (o : MsSqlServerOptions) : Option String :=
  o._connection_str

/-- Property `MsSqlServerOptions.table_ref` (getter). -/
def MsSqlServerOptions.table_ref (o : MsSqlServerOptions) : Option String :=
  o._table_ref

/-- Property setter for `connection_str`. -/
def MsSqlServerOptions.set_connection_str (o : MsSqlServerOptions)
    (cs : Option String) : MsSqlServerOptions :=
  { o with _connection_str := cs }

/-- Property setter for `table_ref`. -/
def MsSqlServerOptions.set_table_ref (o : MsSqlServerOptions)
    (tr : Option String) : MsSqlServerOptions :=
  { o with _table_ref := tr }

/-- `MsSqlServerOptions.from_proto`: parses the configuration payload and
subscripts `options["table_ref"]` and `options["connection_str"]` (in the
evaluation order of the keyword arguments), then calls the constructor. -/
def MsSqlServerOptions.from_proto (config : List (String × JVal)) :
    Except String MsSqlServerOptions := do
  let tr ← keyLookup config "table_ref"
  let cs ← keyLookup config "connection_str"
  Except.ok ⟨jToOptStr cs, jToOptStr tr⟩

/-- `MsSqlServerOptions.to_proto`: serializes the JSON object
with keys `"table_ref"` and `"connection_string"` (note the write key for the
connection string differs from `from_proto`'s read key). -/
def MsSqlServerOptions.to_proto (o : MsSqlServerOptions) : List (String × JVal) :=
  [("table_ref", jOfOptStr o._table_ref),
   ("connection_string", jOfOptStr o._connection_str)]

/-- Python `dict` lookup for the field mapping (later binding wins). -/
def pyDictGet : List (String × String) → String → Option String
  | [], _ => none
  | (k, v) :: rest, key =>
    match pyDictGet rest key with
    | some v2 => some v2
    | none => if k == key then some v else none

/-- Python `dict` equality for field mappings: same keys, same value at every
key (insertion order irrelevant). -/
def pyDictEq (a b : List (String × String)) : Bool :=
  a.all (fun kv => pyDictGet b kv.1 == pyDictGet a kv.1)
    && b.all (fun kv => pyDictGet a kv.1 == pyDictGet b kv.1)

/-- Number of occurrences of the separator `'.'` in a character list. -/
def dotCount : List Char → Nat
  | [] => 0
  | c :: rest => (if c = '.' then 1 else 0) + dotCount rest

/-- Core of Python `str.split(".")`: returns the first group and the list of
remaining groups. -/
def pySplitDotCore : List Char → List Char × List (List Char)
  | [] => ([], [])
  | c :: rest =>
    if c = '.' then ([], (pySplitDotCore rest).1 :: (pySplitDotCore rest).2)
    else (c :: (pySplitDotCore rest).1, (pySplitDotCore rest).2)

/-- Python `str.split(".")` on a character list: always at least one group,
empty groups kept (`"".split(".") == [""]`, `"a..b".split(".") == ["a","","b"]`). -/
def pySplitDot (l : List Char) : List (List Char) :=
  (pySplitDotCore l).1 :: (pySplitDotCore l).2

/-- The statement `database, table_name = self.table_ref.split(".")`:
`AttributeError` when `table_ref` is `None`, `ValueError` unless the split
yields exactly two parts. -/
def splitTableRef : Option String → Except String (String × String)
  | none => Except.error "AttributeError: NoneType object has no attribute split"
  | some s =>
    match pySplitDot s.toList with
    | [d, t] => Except.ok (String.mk d, String.mk t)
    | _ => Except.error "ValueError: unpacking table_ref split failed"

/-- The external SQL layer (engine creation plus `pandas.read_sql` of the
`INFORMATION_SCHEMA.COLUMNS` query): given the connection string, the
database and the table name, it returns the `COLUMN_NAME` column and the
`DATA_TYPE` column of the query result. -/
def SqlLayer : Type :=
  Option String → String → String → List String × List String

/-- Does `hay` start with `pat`? (character-list helper). -/
def charsStartWith : List Char → List Char → Bool
  | _, [] => true
  | [], _ :: _ => false
  | a :: as, b :: bs => a == b && charsStartWith as bs

/-- Does `hay` contain `pat` as a contiguous subsequence? -/
def charsContain : List Char → List Char → Bool
  | [], pat => charsStartWith [] pat
  | h :: rest, pat => charsStartWith (h :: rest) pat || charsContain rest pat

/-- Uppercased character list of a string (case-insensitive matching). -/
def upperChars (s : String) : List Char :=
  s.toList.map Char.toUpper

/-- Case-insensitive match of a column type name against the inference
pattern `TIMESTAMP|DATETIME`. -/
def tsTypeMatches (ty : String) : Bool :=
  charsContain (upperChars ty) (upperChars "TIMESTAMP")
    || charsContain (upperChars ty) (upperChars "DATETIME")

/-- Modelled from the spec: the base class `_infer_event_timestamp_column`
(the `feast` base `DataSource` is an external collaborator, not under the
repository sources). Per the spec it scans the table's (column name, type
name) rows for the first type name matching `TIMESTAMP|DATETIME`
case-insensitively and returns that column name, leaving the column empty
when nothing matches. -/
def inferEventTimestampColumn (rows : List (String × String)) : String :=
  match rows.find? (fun r => tsTypeMatches r.2) with
  | some r => r.1
  | none => ""

/-- Schema introspection with explicit connection string and table reference:
split the reference, run the metadata query, zip the `COLUMN_NAME` and
`DATA_TYPE` columns (this is the body of `get_table_column_names_and_types`). -/
def introspectWith (db : SqlLayer) (cs : Option String) (tr : Option String) :
    Except String (List (String × String)) := do
  let p ← splitTableRef tr
  let table_schema := db cs p.1 p.2
  pure (List.zip table_schema.1 table_schema.2)

/-- The event-timestamp inference as invoked during construction: introspect
the table with the connection string and table reference being stored on the
partially built source, then scan for a timestamp-like column. -/
def inferETS (db : SqlLayer) (cs tr : Option String) : Except String String :=
  (introspectWith db cs tr).map inferEventTimestampColumn

/-- `MsSqlServerSource`: the options holder and the separate connection-string
copy set in `__init__`, plus the base `DataSource` fields (modelled from the
spec: the base abstraction stores the event/created timestamp columns, the
field mapping and the date partition column verbatim, with an absent field
mapping stored as an empty mapping). -/
structure MsSqlServerSource where
  _mssqlserver_options : MsSqlServerOptions
  _connection_str : Option String
  event_timestamp_column : String
  created_timestamp_column : String
  field_mapping : List (String × String)
  date_partition_column : String
deriving DecidableEq

/-- Property `mssqlserver_options` (getter). -/
def MsSqlServerSource.mssqlserver_options (s : MsSqlServerSource) :
    MsSqlServerOptions :=
  s._mssqlserver_options

/-- Property setter `mssqlserver_options`: replaces the options object only
(the `_connection_str` copy is untouched). -/
def MsSqlServerSource.set_mssqlserver_options (s : MsSqlServerSource)
    (o : MsSqlServerOptions) : MsSqlServerSource :=
  { s with _mssqlserver_options := o }

/-- Property `table_ref`: reads through the options object. -/
def MsSqlServerSource.table_ref (s : MsSqlServerSource) : Option String :=
  s._mssqlserver_options._table_ref

/-- Python truthiness of `event_timestamp_column or <inference>`: `None` and
the empty string are falsy and select the (fallible) inference; a non-empty
string short-circuits it. -/
def pyTruthyOr (v : Option String) (d : Except String String) :
    Except String String :=
  match v with
  | some s => if s = "" then d else Except.ok s
  | none => d

/-- `MsSqlServerSource.__init__` (parameters in source order): builds the
options holder, keeps the separate `_connection_str` copy, and passes
`event_timestamp_column or self._infer_event_timestamp_column("TIMESTAMP|DATETIME")`
to the base initializer. Fallible because the inference introspects the
schema. -/
def mkMsSqlServerSource (db : SqlLayer) (table_ref : Option String)
    (event_timestamp_column : Option String)
    (created_timestamp_column : String)
    (field_mapping : Option (List (String × String)))
    (date_partition_column : String)
    (connection_str : Option String) : Except String MsSqlServerSource := do
  let ets ← pyTruthyOr event_timestamp_column (inferETS db connection_str table_ref)
  pure { _mssqlserver_options := ⟨connection_str, table_ref⟩,
         _connection_str := connection_str,
         event_timestamp_column := ets,
         created_timestamp_column := created_timestamp_column,
         field_mapping := field_mapping.getD [],
         date_partition_column := date_partition_column }

/-- A Python value handed to `__eq__`: either another source or some
non-source value (integer, string, `None`). -/
inductive PyObj where
  | source (s : MsSqlServerSource)
  | intVal (n : Int)
  | strVal (s : String)
  | noneVal
deriving DecidableEq

/-- The comparison performed by `__eq__` between two sources: connection
strings (read through the options objects), event-timestamp columns,
created-timestamp columns and field mappings. -/
def MsSqlServerSource.eqSource (a b : MsSqlServerSource) : Bool :=
  a.mssqlserver_options.connection_str == b.mssqlserver_options.connection_str
    && a.event_timestamp_column == b.event_timestamp_column
    && a.created_timestamp_column == b.created_timestamp_column
    && pyDictEq a.field_mapping b.field_mapping

/-- `MsSqlServerSource.__eq__`: raises `TypeError` when the other operand is
not an `MsSqlServerSource`, otherwise returns the field comparison. -/
def MsSqlServerSource.eqPy (s : MsSqlServerSource) (other : PyObj) :
    Except String Bool :=
  match other with
  | PyObj.source o => Except.ok (s.eqSource o)
  | _ => Except.error "Comparisons should only involve SqlServerSource class objects."

/-- The `type` enum of the outer data-source protocol message (only the
values relevant here). -/
inductive DataSourceTypeProto where
  | BATCH_FILE
  | CUSTOM_SOURCE
deriving DecidableEq

/-- The outer `DataSourceProto` message: type tag, field mapping, the custom
options payload (the JSON configuration), and the three column names (proto3
string fields, defaulting to the empty string). -/
structure DataSourceProto where
  type : DataSourceTypeProto
  field_mapping : List (String × String)
  custom_options : List (String × JVal)
  event_timestamp_column : String
  created_timestamp_column : String
  date_partition_column : String
deriving DecidableEq

/-- `MsSqlServerSource.to_proto`: tags the message `CUSTOM_SOURCE`, embeds
the field mapping and the options payload, and copies the three columns. -/
def MsSqlServerSource.to_proto (s : MsSqlServerSource) : DataSourceProto :=
  { type := DataSourceTypeProto.CUSTOM_SOURCE,
    field_mapping := s.field_mapping,
    custom_options := s.mssqlserver_options.to_proto,
    event_timestamp_column := s.event_timestamp_column,
    created_timestamp_column := s.created_timestamp_column,
    date_partition_column := s.date_partition_column }

/-- `MsSqlServerSource.from_proto`: parses the embedded payload, subscripts
`options["table_ref"]` and `options["connection_string"]`, and calls the
constructor with the outer message's columns and field mapping. -/
def MsSqlServerSource.from_proto (db : SqlLayer) (data_source : DataSourceProto) :
    Except String MsSqlServerSource := do
  let tr ← keyLookup data_source.custom_options "table_ref"
  let cs ← keyLookup data_source.custom_options "connection_string"
  mkMsSqlServerSource db (jToOptStr tr)
    (some data_source.event_timestamp_column)
    data_source.created_timestamp_column
    (some data_source.field_mapping)
    data_source.date_partition_column
    (jToOptStr cs)

/-- Python `str(x)` on an optional string as an f-string interpolates `None`
for the absent value. -/
def pyStr : Option String → String
  | none => "None"
  | some s => s

/-- `MsSqlServerSource.get_table_query_string`: the f-string
interpolation of `self.table_ref` between backticks. -/
def MsSqlServerSource.get_table_query_string (s : MsSqlServerSource) : String :=
  "`" ++ pyStr s.table_ref ++ "`"

/-- `MsSqlServerSource.get_table_column_names_and_types`: introspects with the
separate `_connection_str` copy and the `table_ref` property. -/
def MsSqlServerSource.get_table_column_names_and_types (s : MsSqlServerSource)
    (db : SqlLayer) : Except String (List (String × String)) :=
  introspectWith db s._connection_str s.table_ref

/-! Concrete fixtures used by the witness theorems. -/

/-- A stub SQL layer: every metadata query returns the two columns
`COLUMN_NAME = [id, ts]` and `DATA_TYPE = [int, datetime]`. -/
def stubLayer : SqlLayer := fun _ _ _ => (["id", "ts"], ["int", "datetime"])

/-- A concrete source with table reference `db.t`. -/
def sampleSource : MsSqlServerSource :=
  ⟨⟨some "server=sql", some "db.t"⟩, some "server=sql", "ts", "created",
   [("a", "b")], ""⟩

/-- A concrete source whose table reference `mytable` has no dot. -/
def badRefSource : MsSqlServerSource :=
  ⟨⟨some "server=sql", some "mytable"⟩, some "server=sql", "ts", "", [], ""⟩

/-- A concrete source with table reference `mydb.mytable`. -/
def queryRefSource : MsSqlServerSource :=
  ⟨⟨some "server=sql", some "mydb.mytable"⟩, some "server=sql", "ts", "", [], ""⟩

/-- A concrete source built without a table reference. -/
def noRefSource : MsSqlServerSource :=
  ⟨⟨some "", none⟩, some "", "ts", "", [], ""⟩

/-- A concrete outer message whose `event_timestamp_column` is the proto
default empty string. -/
def sampleProtoEmptyEts : DataSourceProto :=
  ⟨DataSourceTypeProto.CUSTOM_SOURCE, [],
   [("table_ref", JVal.str "db.t"), ("connection_string", JVal.str "server=sql")],
   "", "", ""⟩

/-! Helper lemmas. -/

/-- Dict lookup of a key against itself is reflexively equal, so Python dict
equality is reflexive. -/
theorem pyDictEq_refl (l : List (String × String)) : pyDictEq l l = true := by
  simp [pyDictEq, List.all_eq_true]

/-- The source equality comparison is reflexive. -/
theorem eqSource_refl (a : MsSqlServerSource) : a.eqSource a = true := by
  simp [MsSqlServerSource.eqSource, pyDictEq_refl]

/-- Decoding inverts encoding of optional strings into JSON values. -/
theorem jToOptStr_jOfOptStr (x : Option String) : jToOptStr (jOfOptStr x) = x := by
  cases x <;> rfl

/-- Lookup of `table_ref` in a two-key options payload. -/
theorem jsonGet_payload_table_ref (a b : JVal) :
    jsonGet [("table_ref", a), ("connection_string", b)] "table_ref" = some a := rfl

/-- Lookup of `connection_string` in a two-key options payload. -/
theorem jsonGet_payload_connection_string (a b : JVal) :
    jsonGet [("table_ref", a), ("connection_string", b)] "connection_string" = some b := rfl

/-- Lookup of the read key `connection_str` in the payload written by
`MsSqlServerOptions.to_proto` finds nothing. -/
theorem jsonGet_payload_connection_str (a b : JVal) :
    jsonGet [("table_ref", a), ("connection_string", b)] "connection_str" = none := rfl

/-- The number of groups behind the first one equals the number of dots. -/
theorem pySplitDotCore_length : ∀ l : List Char,
    (pySplitDotCore l).2.length = dotCount l
  | [] => rfl
  | c :: rest => by
    by_cases hc : c = '.'
    · simp [pySplitDotCore, hc, dotCount, pySplitDotCore_length rest]
      omega
    · simp [pySplitDotCore, hc, dotCount, pySplitDotCore_length rest]

/-- A dot-free character list splits into itself alone. -/
theorem pySplitDotCore_nodot : ∀ l : List Char, dotCount l = 0 →
    pySplitDotCore l = (l, [])
  | [], _ => rfl
  | c :: rest, h => by
    have hc : ¬ c = '.' := by
      intro hc
      simp [dotCount, hc] at h
    have hr : dotCount rest = 0 := by
      simpa [dotCount, hc] using h
    simp [pySplitDotCore, hc, pySplitDotCore_nodot rest hr]

/-- Splitting past a dot-free leading segment keeps that segment in the first
group. -/
theorem pySplitDotCore_append : ∀ d m : List Char, dotCount d = 0 →
    pySplitDotCore (d ++ m) = (d ++ (pySplitDotCore m).1, (pySplitDotCore m).2)
  | [], m, _ => by simp
  | c :: rest, m, h => by
    have hc : ¬ c = '.' := by
      intro hc
      simp [dotCount, hc] at h
    have hr : dotCount rest = 0 := by
      simpa [dotCount, hc] using h
    simp [pySplitDotCore, hc, pySplitDotCore_append rest m hr]

/-- The Python split always yields one more group than there are dots. -/
theorem pySplitDot_length (l : List Char) :
    (pySplitDot l).length = dotCount l + 1 := by
  simp [pySplitDot, pySplitDotCore_length]

/-- A reference of the shape `<database>.<table>` with dot-free halves splits
into exactly those two parts. -/
theorem pySplitDot_split (d t : List Char) (hd : dotCount d = 0)
    (ht : dotCount t = 0) : pySplitDot (d ++ '.' :: t) = [d, t] := by
  have h1 : pySplitDotCore ('.' :: t) = ([], t :: []) := by
    simp [pySplitDotCore, pySplitDotCore_nodot t ht]
  simp [pySplitDot, pySplitDotCore_append d ('.' :: t) hd, h1]

/-- Reduction of the split statement when the split has exactly two parts. -/
theorem splitTableRef_two (s : String) (d t : List Char)
    (h : pySplitDot s.toList = [d, t]) :
    splitTableRef (some s) = Except.ok (String.mk d, String.mk t) := by
  simp only [splitTableRef, h]

/-- Reduction of the split statement when the number of parts is not two. -/
theorem splitTableRef_err (s : String)
    (h : (pySplitDot s.toList).length ≠ 2) :
    splitTableRef (some s) = Except.error "ValueError: unpacking table_ref split failed" := by
  rcases hsp : pySplitDot s.toList with _ | ⟨a, _ | ⟨b, _ | ⟨c, rest⟩⟩⟩
  · simp only [splitTableRef, hsp]
  · simp only [splitTableRef, hsp]
  · rw [hsp] at h
    simp at h
  · simp only [splitTableRef, hsp]

/-- Introspection propagates a failing split and consults no SQL layer. -/
theorem introspectWith_err (db : SqlLayer) (cs tr : Option String) (m : String)
    (h : splitTableRef tr = Except.error m) :
    introspectWith db cs tr = Except.error m := by
  unfold introspectWith
  rw [h]
  rfl

/-- Introspection after a successful split zips the two result columns of the
metadata query. -/
theorem introspectWith_ok (db : SqlLayer) (cs tr : Option String)
    (p : String × String) (h : splitTableRef tr = Except.ok p) :
    introspectWith db cs tr
      = Except.ok (List.zip (db cs p.1 p.2).1 (db cs p.1 p.2).2) := by
  unfold introspectWith
  rw [h]
  rfl

/-- Zipping the two projections of a pair list gives back the list. -/
theorem zip_proj_eq {α β : Type} : ∀ l : List (α × β),
    List.zip (l.map Prod.fst) (l.map Prod.snd) = l
  | [] => rfl
  | a :: rest => by
    simp [List.zip_cons_cons, zip_proj_eq rest]

/-- Bind on a successful `Except` computation applies the continuation. -/
theorem except_bind_ok {α β ε : Type} (a : α) (f : α → Except ε β) :
    (Except.ok a >>= f : Except ε β) = f a := rfl

/-- Bind on a failed `Except` computation propagates the error. -/
theorem except_bind_err {α β ε : Type} (m : ε) (f : α → Except ε β) :
    ((Except.error m : Except ε α) >>= f) = Except.error m := rfl

/-- Map over a successful `Except` computation applies the function. -/
theorem except_map_ok {α β ε : Type} (g : α → β) (a : α) :
    (Except.ok a : Except ε α).map g = Except.ok (g a) := rfl

/-- Map over a failed `Except` computation propagates the error. -/
theorem except_map_err {α β ε : Type} (g : α → β) (m : ε) :
    (Except.error m : Except ε α).map g = (Except.error m : Except ε β) := rfl

/-- C1 (counterexample): for the concrete options
`connection_str = "server=sql"`, `table_ref = "db.t"`, the options-level
round-trip does not return a rehydrated object with `table_ref` kept and
`connection_str` absent, as the claim states; it raises `KeyError` on the
missing read key `connection_str`, because `to_proto` wrote the key
`connection_string`. -/
theorem options_round_trip_counterexample :
    MsSqlServerOptions.from_proto
        (MsSqlServerOptions.to_proto ⟨some "server=sql", some "db.t"⟩)
      = Except.error "KeyError: connection_str"
    ∧ MsSqlServerOptions.from_proto
        (MsSqlServerOptions.to_proto ⟨some "server=sql", some "db.t"⟩)
      ≠ Except.ok ⟨none, some "db.t"⟩ := by
  refine ⟨rfl, fun h => ?_⟩
  rw [show MsSqlServerOptions.from_proto
      (MsSqlServerOptions.to_proto ⟨some "server=sql", some "db.t"⟩)
      = Except.error "KeyError: connection_str" from rfl] at h
  exact Except.noConfusion h

/-- C1 (amended): for every `MsSqlServerOptions` built with non-null
`table_ref` and `connection_str`, `from_proto (to_proto opts)` raises the
missing-key error `KeyError: connection_str` (because `to_proto` writes the
key `connection_string` while `from_proto` reads `connection_str`), so
neither field is rehydrated: no object is produced at all. -/
theorem options_round_trip_raises (cs tr : String) :
    MsSqlServerOptions.from_proto
        (MsSqlServerOptions.to_proto ⟨some cs, some tr⟩)
      = Except.error "KeyError: connection_str" := rfl

/-- C3: comparing a source with `==` to any value that is not an
`MsSqlServerSource` raises the type-mismatch `TypeError` with the message
from the source; it never returns a boolean. -/
theorem eqPy_non_source_raises (s : MsSqlServerSource) (o : PyObj)
    (h : ∀ s2 : MsSqlServerSource, o ≠ PyObj.source s2) :
    s.eqPy o
      = Except.error "Comparisons should only involve SqlServerSource class objects." := by
  cases o with
  | source s2 => exact absurd rfl (h s2)
  | intVal n => rfl
  | strVal t => rfl
  | noneVal => rfl

/-- Witness for C3: comparing the sample source to the integer `3` raises. -/
theorem eqPy_non_source_raises_witness :
    sampleSource.eqPy (PyObj.intVal 3)
      = Except.error "Comparisons should only involve SqlServerSource class objects." :=
  eqPy_non_source_raises sampleSource (PyObj.intVal 3)
    (fun _ h => PyObj.noConfusion h)

/-- C4: source equality holds iff the options' connection strings, the
event-timestamp columns, the created-timestamp columns and the field
mappings all match; and a source stays equal to itself after changing only
the table reference, or only the date partition column (those two are not
compared). -/
theorem eqSource_iff_fields (a b : MsSqlServerSource) (tr2 : Option String)
    (dp2 : String) :
    (a.eqSource b = true ↔
      (a.mssqlserver_options.connection_str = b.mssqlserver_options.connection_str
        ∧ a.event_timestamp_column = b.event_timestamp_column
        ∧ a.created_timestamp_column = b.created_timestamp_column
        ∧ pyDictEq a.field_mapping b.field_mapping = true))
    ∧ a.eqSource (a.set_mssqlserver_options (a.mssqlserver_options.set_table_ref tr2)) = true
    ∧ a.eqSource { a with date_partition_column := dp2 } = true := by
  refine ⟨?_, ?_, ?_⟩
  · simp [MsSqlServerSource.eqSource, Bool.and_eq_true, beq_iff_eq, and_assoc]
  · simp [MsSqlServerSource.eqSource, MsSqlServerSource.set_mssqlserver_options,
      MsSqlServerSource.mssqlserver_options, MsSqlServerOptions.set_table_ref,
      MsSqlServerOptions.connection_str, pyDictEq_refl]
  · simp [MsSqlServerSource.eqSource, MsSqlServerSource.mssqlserver_options,
      MsSqlServerOptions.connection_str, pyDictEq_refl]

/-- C5: for a table reference that does not contain exactly one dot, schema
introspection raises the unpack `ValueError` from the split step, whatever
the SQL layer is — no metadata query is consulted. -/
theorem get_columns_malformed_ref_raises (db : SqlLayer)
    (s : MsSqlServerSource) (tr : String)
    (h1 : s.table_ref = some tr) (h2 : dotCount tr.toList ≠ 1) :
    s.get_table_column_names_and_types db
      = Except.error "ValueError: unpacking table_ref split failed" := by
  have hlen : (pySplitDot tr.toList).length ≠ 2 := by
    rw [pySplitDot_length]
    omega
  have hsp := splitTableRef_err tr hlen
  unfold MsSqlServerSource.get_table_column_names_and_types
  rw [h1]
  exact introspectWith_err db s._connection_str (some tr) _ hsp

/-- Witness for C5: the source with table reference `mytable` raises. -/
theorem get_columns_malformed_ref_raises_witness :
    badRefSource.get_table_column_names_and_types stubLayer
      = Except.error "ValueError: unpacking table_ref split failed" :=
  get_columns_malformed_ref_raises stubLayer badRefSource "mytable" rfl
    (by decide)

/-- C6: on a source with table reference `mydb.mytable`, the query-string
helper returns that reference wrapped in backticks. -/
theorem get_table_query_string_backticks (s : MsSqlServerSource)
    (h : s.table_ref = some "mydb.mytable") :
    s.get_table_query_string = "`mydb.mytable`" := by
  unfold MsSqlServerSource.get_table_query_string
  rw [h]
  rfl

/-- Witness for C6: the concrete source with that table reference. -/
theorem get_table_query_string_backticks_witness :
    queryRefSource.get_table_query_string = "`mydb.mytable`" :=
  get_table_query_string_backticks queryRefSource rfl

/-- C10: a source constructed without a table reference (explicit
`event_timestamp_column`, so construction succeeds without inference) does
not fail in `get_table_query_string`; the absent reference is stringified,
giving the literal `None` in backticks. -/
theorem no_table_ref_query_string (db : SqlLayer) (e cts dp : String)
    (fm : List (String × String)) (cs : Option String)
    (src : MsSqlServerSource) (he : e ≠ "")
    (h : mkMsSqlServerSource db none (some e) cts (some fm) dp cs
        = Except.ok src) :
    src.get_table_query_string = "`None`" := by
  have hmk : mkMsSqlServerSource db none (some e) cts (some fm) dp cs
      = Except.ok { _mssqlserver_options := ⟨cs, none⟩, _connection_str := cs,
                    event_timestamp_column := e,
                    created_timestamp_column := cts, field_mapping := fm,
                    date_partition_column := dp } := by
    simp [mkMsSqlServerSource, pyTruthyOr, he]
  rw [hmk] at h
  have hs := Except.ok.inj h
  rw [← hs]
  rfl

/-- Witness for C10: the concrete source built without a table reference. -/
theorem no_table_ref_query_string_witness :
    noRefSource.get_table_query_string = "`None`" :=
  no_table_ref_query_string stubLayer "ts" "" "" [] (some "") noRefSource
    (by decide) rfl

/-- The source-level deserialization of a serialized source reduces to a
constructor call on the original fields: the source-level read keys match the
write keys. -/
theorem from_proto_to_proto (db : SqlLayer) (src : MsSqlServerSource) :
    MsSqlServerSource.from_proto db src.to_proto
      = mkMsSqlServerSource db src._mssqlserver_options._table_ref
          (some src.event_timestamp_column) src.created_timestamp_column
          (some src.field_mapping) src.date_partition_column
          src._mssqlserver_options._connection_str := by
  simp only [MsSqlServerSource.from_proto, MsSqlServerSource.to_proto,
    MsSqlServerOptions.to_proto, MsSqlServerSource.mssqlserver_options,
    keyLookup, jsonGet_payload_table_ref, jsonGet_payload_connection_string,
    jToOptStr_jOfOptStr, except_bind_ok]

/-- C2: a source built with explicit table reference, connection string,
event-timestamp column (non-empty, as an explicit column name is), created
timestamp column, field mapping and date partition column round-trips
through `to_proto` and `from_proto` to an object equal to the original under
the source equality. -/
theorem source_proto_round_trip (db : SqlLayer) (tr e cts dp : String)
    (fm : List (String × String)) (cs : String) (src : MsSqlServerSource)
    (he : e ≠ "")
    (h : mkMsSqlServerSource db (some tr) (some e) cts (some fm) dp (some cs)
        = Except.ok src) :
    ∃ src2, MsSqlServerSource.from_proto db src.to_proto = Except.ok src2
      ∧ src.eqSource src2 = true ∧ src2.eqSource src = true := by
  have hmk : mkMsSqlServerSource db (some tr) (some e) cts (some fm) dp (some cs)
      = Except.ok { _mssqlserver_options := ⟨some cs, some tr⟩,
                    _connection_str := some cs, event_timestamp_column := e,
                    created_timestamp_column := cts, field_mapping := fm,
                    date_partition_column := dp } := by
    simp [mkMsSqlServerSource, pyTruthyOr, he]
  rw [hmk] at h
  have hs := Except.ok.inj h
  refine ⟨src, ?_, eqSource_refl src, eqSource_refl src⟩
  rw [from_proto_to_proto db src, ← hs]
  exact hmk

/-- Witness for C2: the concrete sample source round-trips. -/
theorem source_proto_round_trip_witness :
    ∃ src2, MsSqlServerSource.from_proto stubLayer sampleSource.to_proto
        = Except.ok src2
      ∧ sampleSource.eqSource src2 = true
      ∧ src2.eqSource sampleSource = true :=
  source_proto_round_trip stubLayer "db.t" "ts" "created" "" [("a", "b")]
    "server=sql" sampleSource (by decide) rfl

/-- C7: on a well-formed table reference `<database>.<table>`, schema
introspection returns exactly the row sequence delivered by the SQL layer
(the zip of the `COLUMN_NAME` and `DATA_TYPE` columns), in the same order,
with no deduplication and no sorting. -/
theorem get_columns_returns_rows (db : SqlLayer) (s : MsSqlServerSource)
    (d t : List Char) (rows : List (String × String))
    (h1 : s.table_ref = some (String.mk (d ++ '.' :: t)))
    (hd : dotCount d = 0) (ht : dotCount t = 0)
    (hdb : db s._connection_str (String.mk d) (String.mk t)
        = (rows.map Prod.fst, rows.map Prod.snd)) :
    s.get_table_column_names_and_types db = Except.ok rows := by
  have hsp : pySplitDot (String.mk (d ++ '.' :: t)).toList = [d, t] :=
    pySplitDot_split d t hd ht
  have hst := splitTableRef_two (String.mk (d ++ '.' :: t)) d t hsp
  unfold MsSqlServerSource.get_table_column_names_and_types
  rw [h1, introspectWith_ok db s._connection_str _ (String.mk d, String.mk t) hst]
  simp [hdb, zip_proj_eq]

/-- Witness for C7: the stub layer returns columns `id, ts` with types
`int, datetime` and the sample source gets back exactly those pairs. -/
theorem get_columns_returns_rows_witness :
    sampleSource.get_table_column_names_and_types stubLayer
      = Except.ok [("id", "int"), ("ts", "datetime")] :=
  get_columns_returns_rows stubLayer sampleSource "db".toList "t".toList
    [("id", "int"), ("ts", "datetime")] rfl (by decide) (by decide) rfl

/-- C8: an empty `event_timestamp_column` is falsy, so (a) constructing with
the explicit empty string behaves exactly as constructing with the column
unsupplied, (b) the column stored by such a construction is the result of the
live inference over the introspected schema, and (c) deserializing an outer
message whose `event_timestamp_column` is the proto-default empty string
invokes that same inference instead of keeping the empty string. -/
theorem empty_ets_triggers_inference (db : SqlLayer) (tr cts dp : String)
    (fm : List (String × String)) (cs : Option String) (p : DataSourceProto)
    (hp1 : p.event_timestamp_column = "")
    (hp2 : p.custom_options
        = [("table_ref", JVal.str tr), ("connection_string", jOfOptStr cs)]) :
    (mkMsSqlServerSource db (some tr) (some "") cts (some fm) dp cs
        = mkMsSqlServerSource db (some tr) none cts (some fm) dp cs)
    ∧ ((mkMsSqlServerSource db (some tr) (some "") cts (some fm) dp cs).map
          (fun s => s.event_timestamp_column) = inferETS db cs (some tr))
    ∧ (MsSqlServerSource.from_proto db p
        = mkMsSqlServerSource db (some tr) none p.created_timestamp_column
            (some p.field_mapping) p.date_partition_column cs) := by
  refine ⟨rfl, ?_, ?_⟩
  · cases hie : inferETS db cs (some tr) with
    | ok v =>
      simp [mkMsSqlServerSource, pyTruthyOr, hie, except_bind_ok, except_map_ok]
    | error m =>
      simp [mkMsSqlServerSource, pyTruthyOr, hie, except_bind_err, except_map_err]
  · unfold MsSqlServerSource.from_proto
    rw [hp2, hp1]
    simp only [keyLookup, jsonGet_payload_table_ref,
      jsonGet_payload_connection_string, jToOptStr_jOfOptStr, except_bind_ok]
    rfl

/-- Witness for C8: concrete instantiation on the stub layer and the sample
outer message with the proto-default empty timestamp column. -/
theorem empty_ets_triggers_inference_witness :
    (mkMsSqlServerSource stubLayer (some "db.t") (some "") "" (some [])
        "" (some "server=sql")
      = mkMsSqlServerSource stubLayer (some "db.t") none "" (some [])
        "" (some "server=sql"))
    ∧ ((mkMsSqlServerSource stubLayer (some "db.t") (some "") "" (some [])
          "" (some "server=sql")).map (fun s => s.event_timestamp_column)
        = inferETS stubLayer (some "server=sql") (some "db.t"))
    ∧ (MsSqlServerSource.from_proto stubLayer sampleProtoEmptyEts
        = mkMsSqlServerSource stubLayer (some "db.t") none
            sampleProtoEmptyEts.created_timestamp_column
            (some sampleProtoEmptyEts.field_mapping)
            sampleProtoEmptyEts.date_partition_column (some "server=sql")) :=
  empty_ets_triggers_inference stubLayer "db.t" "" "" [] (some "server=sql")
    sampleProtoEmptyEts rfl rfl

/-- C9: replacing the options object through the property setter changes the
connection string observed by the getter, by serialization and by equality,
but schema introspection still uses the separate connection-string copy
stored at construction (only the table reference is read through the new
options object). -/
theorem connection_copy_independent (s : MsSqlServerSource)
    (o : MsSqlServerOptions) (b : MsSqlServerSource) (db : SqlLayer) :
    ((s.set_mssqlserver_options o).mssqlserver_options = o)
    ∧ (jsonGet (MsSqlServerSource.to_proto
          (s.set_mssqlserver_options o)).custom_options "connection_string"
        = some (jOfOptStr o.connection_str))
    ∧ ((s.set_mssqlserver_options o).eqPy (PyObj.source b)
        = Except.ok (o.connection_str == b.mssqlserver_options.connection_str
            && s.event_timestamp_column == b.event_timestamp_column
            && s.created_timestamp_column == b.created_timestamp_column
            && pyDictEq s.field_mapping b.field_mapping))
    ∧ ((s.set_mssqlserver_options o).get_table_column_names_and_types db
        = introspectWith db s._connection_str o.table_ref) :=
  ⟨rfl, rfl, rfl, rfl⟩
